import Mathlib

/-!
Verification of NuttX `libc/syslog/lib_syslog.c` (syslog dispatch core).

The C unit is parameterized by preprocessor configuration symbols and by a
handful of external capabilities (interrupt-context query, hardware-clock
readiness, monotonic clock read, the formatted-output engine, and the
low-level fallback `lowvsyslog`).  We embed the unit shallowly:

* the preprocessor configuration becomes a `Config` record;
* the external capabilities become an `Env` record of per-call oracle
  values (what each external call would return on this call);
* the observable output actions (sink writes performed via the formatted
  output engine, and the delegation to `lowvsyslog`) are recorded as an
  event trace;
* the single piece of persistent state this unit touches, the severity
  mask `g_syslog_mask`, is threaded explicitly through `SyslogState`.
-/

/-- Build-time configuration symbols consulted by `lib_syslog.c`.
`CONFIG_BUILD_FLAT_OR_KERNEL` stands for
`defined(CONFIG_BUILD_FLAT) || defined(__KERNEL__)` (lib_syslog.c:181). -/
structure Config where
  CONFIG_SYSLOG : Bool
  CONFIG_NFILE_DESCRIPTORS : Nat
  CONFIG_ARCH_LOWPUTC : Bool
  CONFIG_SYSLOG_TIMESTAMP : Bool
  CONFIG_BUILD_FLAT_OR_KERNEL : Bool
deriving DecidableEq, Repr

/-- Per-call values of the external capabilities `lib_syslog.c` consumes.
`clock_ret`, `clock_sec`, `clock_nsec` model `clock_systimespec(&ts)`:
the return code and the timespec it stores on success (`time_t` is
unsigned in NuttX, so seconds/nanoseconds are `Nat`).  `lib_sprintf_ret`
is the (discarded) return of the timestamp `lib_sprintf` call;
`lib_vsprintf_ret` is the byte count returned by the `lib_vsprintf` call
that renders the main message (negative on a formatting/write error);
`lowvsyslog_ret` is the value the fallback `lowvsyslog` call would
return.  `lowvsyslog` itself lives outside this unit; modelled from the
spec: the record is emitted through the low-level console sink and the
sink's byte count (or negative error) is returned. -/
structure Env where
  up_interrupt_context : Bool
  osinit_hw_ready : Bool
  clock_ret : Int
  clock_sec : Nat
  clock_nsec : Nat
  lib_sprintf_ret : Int
  lib_vsprintf_ret : Int
  lowvsyslog_ret : Int
deriving DecidableEq, Repr

/-- Persistent state of the unit: the process-wide severity mask
`g_syslog_mask` (declared in `syslog/syslog.h`, only read here). -/
structure SyslogState where
  g_syslog_mask : Nat
deriving DecidableEq, Repr

/-- Observable output actions of one call.  `stampWrite` records the
`lib_sprintf` that writes the timestamp text to the stream
(content and return value); `msgWrite` records the `lib_vsprintf` that
renders the main format string and arguments into the stream;
`lowWrite` records the delegation to `lowvsyslog` (lib_syslog.c:186). -/
inductive Event where
  | stampWrite (content : String) (ret : Int)
  | msgWrite (ret : Int)
  | lowWrite (ret : Int)
deriving DecidableEq, Repr

/-- Modelled from the spec: `LOG_MASK` comes from `syslog.h`, which is not
part of this unit; the spec states a priority is "used only to compute a
single-bit mask via `1 << level`", so the priority argument is taken to be
the level it selects. -/
def LOG_MASK (priority : Nat) : Nat := 1 <<< priority

/-- Left-pad a rendered number to printf field width `w` with fill
character `c` (the `%6d` / `%06d` conversions used for the timestamp). -/
def padLeft (c : Char) (w : Nat) (s : String) : String :=
  if s.length < w then String.mk (List.replicate (w - s.length) c) ++ s else s

/-- The timestamp text produced by
`lib_sprintf(stream, "[%6d.%06d]", ts.tv_sec, ts.tv_nsec/1000)`
(lib_syslog.c:102-103): seconds space-padded to width 6, microseconds
zero-padded to width 6. -/
def stampText (sec usec : Nat) : String :=
  "[" ++ padLeft ' ' 6 (toString sec) ++ "." ++ padLeft '0' 6 (toString usec) ++ "]"

/-- The timespec used for the timestamp, per lib_syslog.c:83-89: if
`!OSINIT_HW_READY() || clock_systimespec(&ts) < 0` the pair `(0, 0)` is
substituted, otherwise the values the clock read stored. -/
def tsOf (env : Env) : Nat × Nat :=
  if env.osinit_hw_ready = false ∨ env.clock_ret < 0 then (0, 0)
  else (env.clock_sec, env.clock_nsec)

/-- The `#if defined(CONFIG_SYSLOG_TIMESTAMP)` block repeated on each
backend branch of `vsyslog_internal` (lib_syslog.c:99-105, 116-121,
132-137): writes the timestamp text with `lib_sprintf` and casts the
result to `void`; no events when timestamping is compiled out. -/
def stampEvents (cfg : Config) (env : Env) : List Event :=
  if cfg.CONFIG_SYSLOG_TIMESTAMP then
    [Event.stampWrite (stampText (tsOf env).1 ((tsOf env).2 / 1000))
      env.lib_sprintf_ret]
  else []

/-- `vsyslog_internal` (lib_syslog.c:65-146).  The `#if` chain selects the
stream wrapper: `CONFIG_SYSLOG` (syslog stream), else
`CONFIG_NFILE_DESCRIPTORS > 0` (raw stream on descriptor 1), else
`CONFIG_ARCH_LOWPUTC` (low-level stream), else no backend and the
function just returns 0.  On each backend branch, when
`CONFIG_SYSLOG_TIMESTAMP` is set the timestamp text is written first
(return value discarded), then the main message is rendered by
`lib_vsprintf`, whose return value is the function's result. -/
def vsyslog_internal (cfg : Config) (env : Env) : Int × List Event :=
  if cfg.CONFIG_SYSLOG then
    (env.lib_vsprintf_ret,
     stampEvents cfg env ++ [Event.msgWrite env.lib_vsprintf_ret])
  else if 0 < cfg.CONFIG_NFILE_DESCRIPTORS then
    (env.lib_vsprintf_ret,
     stampEvents cfg env ++ [Event.msgWrite env.lib_vsprintf_ret])
  else if cfg.CONFIG_ARCH_LOWPUTC then
    (env.lib_vsprintf_ret,
     stampEvents cfg env ++ [Event.msgWrite env.lib_vsprintf_ret])
  else
    (0, [])

/-- The `#if !defined(CONFIG_SYSLOG) && CONFIG_NFILE_DESCRIPTORS > 0`
condition guarding the interrupt-context redirect (lib_syslog.c:166):
the active backend is the raw file-descriptor sink. -/
def rawBackendActive (cfg : Config) : Prop :=
  cfg.CONFIG_SYSLOG = false ∧ 0 < cfg.CONFIG_NFILE_DESCRIPTORS

instance (cfg : Config) : Decidable (rawBackendActive cfg) := by
  unfold rawBackendActive; infer_instance

/-- The fallback `lowvsyslog` call is compiled in: `CONFIG_ARCH_LOWPUTC`
together with a flat build or the kernel pass (lib_syslog.c:174-187). -/
def fallbackAvailable (cfg : Config) : Prop :=
  cfg.CONFIG_ARCH_LOWPUTC = true ∧ cfg.CONFIG_BUILD_FLAT_OR_KERNEL = true

instance (cfg : Config) : Decidable (fallbackAvailable cfg) := by
  unfold fallbackAvailable; infer_instance

/-- `vsyslog` (lib_syslog.c:162-204).  When
`!defined(CONFIG_SYSLOG) && CONFIG_NFILE_DESCRIPTORS > 0` the
interrupt-context guard is compiled in: from interrupt context the call
either delegates to `lowvsyslog` (when `CONFIG_ARCH_LOWPUTC` and a flat
or kernel build make it available) or leaves `ret = 0`.  Otherwise the
severity mask is consulted and, when the priority's bit is set,
`vsyslog_internal` does the work. -/
def vsyslog (cfg : Config) (env : Env) (st : SyslogState) (priority : Nat) :
    Int × List Event × SyslogState :=
  if rawBackendActive cfg then
    if env.up_interrupt_context then
      if fallbackAvailable cfg then
        (env.lowvsyslog_ret, [Event.lowWrite env.lowvsyslog_ret], st)
      else
        (0, [], st)
    else
      if st.g_syslog_mask &&& LOG_MASK priority ≠ 0 then
        ((vsyslog_internal cfg env).1, (vsyslog_internal cfg env).2, st)
      else
        (0, [], st)
  else
    if st.g_syslog_mask &&& LOG_MASK priority ≠ 0 then
      ((vsyslog_internal cfg env).1, (vsyslog_internal cfg env).2, st)
    else
      (0, [], st)

/-- `syslog` (lib_syslog.c:220-232): collects the variadic arguments and
lets `vsyslog` do the work; in this embedding the collected argument
list is already abstracted into the oracle values of `Env`, so `syslog`
is exactly the `vsyslog` call it wraps. -/
def syslog (cfg : Config) (env : Env) (st : SyslogState) (priority : Nat) :
    Int × List Event × SyslogState :=
  vsyslog cfg env st priority

/-- Some output backend is configured: one of the three branches of
`vsyslog_internal`'s `#if` chain is active. -/
def backendConfigured (cfg : Config) : Prop :=
  cfg.CONFIG_SYSLOG = true ∨ 0 < cfg.CONFIG_NFILE_DESCRIPTORS ∨
    cfg.CONFIG_ARCH_LOWPUTC = true

instance (cfg : Config) : Decidable (backendConfigured cfg) := by
  unfold backendConfigured; infer_instance

/-! ## Helper lemmas -/

/-- The zero timestamp renders as `[     0.000000]`. -/
lemma stampText_zero : stampText 0 0 = "[     0.000000]" := by decide

/-- With a backend configured, `vsyslog_internal` writes the (optional)
timestamp then the main message, and returns the main render count. -/
lemma vsyslog_internal_delivers (cfg : Config) (env : Env)
    (hbk : backendConfigured cfg) :
    vsyslog_internal cfg env =
      (env.lib_vsprintf_ret,
       stampEvents cfg env ++ [Event.msgWrite env.lib_vsprintf_ret]) := by
  unfold vsyslog_internal
  split
  · rfl
  · split
    · rfl
    · split
      · rfl
      · rcases hbk with h | h | h <;> simp_all

/-- With no backend configured, `vsyslog_internal` is the bare
`return 0` of the final `#else` branch. -/
lemma vsyslog_internal_null (cfg : Config) (env : Env)
    (hnb : ¬ backendConfigured cfg) :
    vsyslog_internal cfg env = (0, []) := by
  unfold backendConfigured at hnb
  have h1 : ¬ cfg.CONFIG_SYSLOG = true := fun h => hnb (Or.inl h)
  have h2 : ¬ 0 < cfg.CONFIG_NFILE_DESCRIPTORS :=
    fun h => hnb (Or.inr (Or.inl h))
  have h3 : ¬ cfg.CONFIG_ARCH_LOWPUTC = true :=
    fun h => hnb (Or.inr (Or.inr h))
  unfold vsyslog_internal
  rw [if_neg h1, if_neg h2, if_neg h3]

/-- On the interrupt-context fallback path, `vsyslog` is exactly the
`lowvsyslog` delegation. -/
lemma vsyslog_fallback (cfg : Config) (env : Env) (st : SyslogState)
    (p : Nat) (hraw : rawBackendActive cfg)
    (hirq : env.up_interrupt_context = true)
    (hfb : fallbackAvailable cfg) :
    vsyslog cfg env st p =
      (env.lowvsyslog_ret, [Event.lowWrite env.lowvsyslog_ret], st) := by
  unfold vsyslog
  rw [if_pos hraw, if_pos hirq, if_pos hfb]

/-- When the mask check is reached (no interrupt redirect) and the
priority's bit is set, `vsyslog` returns `vsyslog_internal`'s result. -/
lemma vsyslog_mask_hit (cfg : Config) (env : Env) (st : SyslogState)
    (p : Nat) (hni : ¬ (rawBackendActive cfg ∧ env.up_interrupt_context = true))
    (hmask : st.g_syslog_mask &&& LOG_MASK p ≠ 0) :
    vsyslog cfg env st p =
      ((vsyslog_internal cfg env).1, (vsyslog_internal cfg env).2, st) := by
  unfold vsyslog
  by_cases hraw : rawBackendActive cfg
  · rw [if_pos hraw, if_neg (fun hirq => hni ⟨hraw, hirq⟩), if_pos hmask]
  · rw [if_neg hraw, if_pos hmask]

/-- When the mask check is reached and the priority's bit is clear,
`vsyslog` leaves `ret = 0` and performs nothing. -/
lemma vsyslog_mask_miss (cfg : Config) (env : Env) (st : SyslogState)
    (p : Nat) (hni : ¬ (rawBackendActive cfg ∧ env.up_interrupt_context = true))
    (hmask : st.g_syslog_mask &&& LOG_MASK p = 0) :
    vsyslog cfg env st p = (0, [], st) := by
  unfold vsyslog
  by_cases hraw : rawBackendActive cfg
  · rw [if_pos hraw, if_neg (fun hirq => hni ⟨hraw, hirq⟩),
      if_neg (not_not_intro hmask)]
  · rw [if_neg hraw, if_neg (not_not_intro hmask)]

/-! ## Concrete configurations and environments used as test points -/

/-- Raw-descriptor backend with the `lowvsyslog` fallback compiled in
(no `CONFIG_SYSLOG`, one file descriptor, `CONFIG_ARCH_LOWPUTC`, no
timestamping, flat/kernel build). -/
def cfgRawFb : Config := ⟨false, 1, true, false, true⟩

/-- Raw-descriptor backend with no fallback at all. -/
def cfgRawNoFb : Config := ⟨false, 1, false, false, false⟩

/-- Structured (`CONFIG_SYSLOG`) backend with timestamping enabled. -/
def cfgStructTs : Config := ⟨true, 0, false, true, false⟩

/-- No backend configured at all. -/
def cfgNull : Config := ⟨false, 0, false, false, false⟩

/-- Interrupt-context call; clock fine; `lowvsyslog` would write 5 bytes. -/
def envIrq : Env := ⟨true, true, 0, 3, 500, 0, 0, 5⟩

/-- Task-context call before hardware clock readiness (clock read also
failing); stamp write reports 2, main render reports 9. -/
def envNoClock : Env := ⟨false, false, -1, 7, 999999, 2, 9, 0⟩

/-- Task-context call whose stamp write errors (-2) and whose main
render also errors (-3). -/
def envNeg : Env := ⟨false, true, 0, 4, 2000, -2, -3, 0⟩

/-! ## Claims -/

/-- C1, as stated, is false: with the raw-descriptor backend, the
low-level fallback available, and the call arriving in interrupt
context, a priority whose bit is clear in the mask (mask 0, priority 3)
still emits through `lowvsyslog` and returns its byte count 5, not 0. -/
theorem C1_counterexample :
    (SyslogState.mk 0).g_syslog_mask &&& LOG_MASK 3 = 0 ∧
    ¬ ((vsyslog cfgRawFb envIrq ⟨0⟩ 3).1 = 0 ∧
       (vsyslog cfgRawFb envIrq ⟨0⟩ 3).2.1 = []) := by decide

/-- C1 (amended): every `log`/`logv` call whose priority bit is clear in
the severity mask returns 0 and performs no sink write and no formatting
work, provided the call is not taken over by the interrupt-context
fallback path (raw-descriptor backend, interrupt context, `lowvsyslog`
available), which bypasses the mask check. -/
theorem C1_masked_call_suppressed (cfg : Config) (env : Env)
    (st : SyslogState) (p : Nat)
    (hmask : st.g_syslog_mask &&& LOG_MASK p = 0)
    (hnofb : ¬ (rawBackendActive cfg ∧ env.up_interrupt_context = true ∧
        fallbackAvailable cfg)) :
    (vsyslog cfg env st p).1 = 0 ∧ (vsyslog cfg env st p).2.1 = [] := by
  by_cases hirq : rawBackendActive cfg ∧ env.up_interrupt_context = true
  · obtain ⟨hraw, hup⟩ := hirq
    have hfb : ¬ fallbackAvailable cfg := fun h => hnofb ⟨hraw, hup, h⟩
    unfold vsyslog
    rw [if_pos hraw, if_pos hup, if_neg hfb]
    exact ⟨rfl, rfl⟩
  · rw [vsyslog_mask_miss cfg env st p hirq hmask]
    exact ⟨rfl, rfl⟩

/-- C1 witness: structured backend, mask 8 (level 3 only), priority 1
disabled: the call returns 0 with no writes. -/
theorem C1_masked_call_suppressed_witness :
    ((SyslogState.mk 8).g_syslog_mask &&& LOG_MASK 1 = 0) ∧
    ((vsyslog cfgStructTs envIrq ⟨8⟩ 1).1 = 0 ∧
     (vsyslog cfgStructTs envIrq ⟨8⟩ 1).2.1 = []) :=
  ⟨by decide,
   C1_masked_call_suppressed cfgStructTs envIrq ⟨8⟩ 1 (by decide) (by decide)⟩

/-- C2: interrupt context, raw-descriptor backend, no `lowvsyslog`
fallback: the call returns 0 and performs zero sink writes, whatever the
severity mask holds. -/
theorem C2_interrupt_raw_no_fallback_drops (cfg : Config) (env : Env)
    (st : SyslogState) (p : Nat)
    (hraw : rawBackendActive cfg)
    (hirq : env.up_interrupt_context = true)
    (hnofb : ¬ fallbackAvailable cfg) :
    (vsyslog cfg env st p).1 = 0 ∧ (vsyslog cfg env st p).2.1 = [] := by
  unfold vsyslog
  rw [if_pos hraw, if_pos hirq, if_neg hnofb]
  exact ⟨rfl, rfl⟩

/-- C2 witness: mask all-ones, yet the interrupt-context call on the
fallback-less raw backend returns 0 with no writes. -/
theorem C2_interrupt_raw_no_fallback_drops_witness :
    ((vsyslog cfgRawNoFb envIrq ⟨255⟩ 3).1 = 0 ∧
     (vsyslog cfgRawNoFb envIrq ⟨255⟩ 3).2.1 = []) :=
  C2_interrupt_raw_no_fallback_drops cfgRawNoFb envIrq ⟨255⟩ 3
    (by decide) (by decide) (by decide)

/-- C3: interrupt context, raw-descriptor backend, fallback available:
the record goes through `lowvsyslog`, whose result is returned, and the
trace holds exactly that delegation — no normal-path stamp or message
write occurs. -/
theorem C3_interrupt_raw_fallback_delegates (cfg : Config) (env : Env)
    (st : SyslogState) (p : Nat)
    (hraw : rawBackendActive cfg)
    (hirq : env.up_interrupt_context = true)
    (hfb : fallbackAvailable cfg) :
    (vsyslog cfg env st p).1 = env.lowvsyslog_ret ∧
    (vsyslog cfg env st p).2.1 = [Event.lowWrite env.lowvsyslog_ret] := by
  rw [vsyslog_fallback cfg env st p hraw hirq hfb]
  exact ⟨rfl, rfl⟩

/-- C3 witness: the interrupt-context call on the raw backend with
fallback returns `lowvsyslog`'s count 5 and only the delegation event. -/
theorem C3_interrupt_raw_fallback_delegates_witness :
    ((vsyslog cfgRawFb envIrq ⟨255⟩ 3).1 = envIrq.lowvsyslog_ret ∧
     (vsyslog cfgRawFb envIrq ⟨255⟩ 3).2.1 =
       [Event.lowWrite envIrq.lowvsyslog_ret]) :=
  C3_interrupt_raw_fallback_delegates cfgRawFb envIrq ⟨255⟩ 3
    (by decide) (by decide) (by decide)

/-- C4: with timestamping enabled and the clock not ready (hardware not
initialized, or the clock read failing), the timestamp is substituted
with (0, 0), the stamp written to the sink is exactly `[     0.000000]`,
and the call still delivers the main message and returns the main
render's byte count — the clock failure never fails the call. -/
theorem C4_clock_unready_zero_stamp (cfg : Config) (env : Env)
    (hts : cfg.CONFIG_SYSLOG_TIMESTAMP = true)
    (hbk : backendConfigured cfg)
    (hclk : env.osinit_hw_ready = false ∨ env.clock_ret < 0) :
    (vsyslog_internal cfg env).2 =
      [Event.stampWrite "[     0.000000]" env.lib_sprintf_ret,
       Event.msgWrite env.lib_vsprintf_ret] ∧
    (vsyslog_internal cfg env).1 = env.lib_vsprintf_ret := by
  have h0 : tsOf env = (0, 0) := by unfold tsOf; rw [if_pos hclk]
  have hse : stampEvents cfg env =
      [Event.stampWrite "[     0.000000]" env.lib_sprintf_ret] := by
    unfold stampEvents
    rw [if_pos hts, h0]
    simp [stampText_zero]
  rw [vsyslog_internal_delivers cfg env hbk, hse]
  exact ⟨rfl, rfl⟩

/-- C4 witness: hardware clock not ready and the read failing: exactly
the zero stamp then the message, returning the render count 9. -/
theorem C4_clock_unready_zero_stamp_witness :
    ((vsyslog_internal cfgStructTs envNoClock).2 =
      [Event.stampWrite "[     0.000000]" envNoClock.lib_sprintf_ret,
       Event.msgWrite envNoClock.lib_vsprintf_ret] ∧
     (vsyslog_internal cfgStructTs envNoClock).1 =
       envNoClock.lib_vsprintf_ret) :=
  C4_clock_unready_zero_stamp cfgStructTs envNoClock rfl
    (Or.inl rfl) (Or.inl rfl)

/-- C5: the stamp write and the message write are two separate sink
writes, and for every possible stamp-write result `pr` (a failure
included) the main message is still written and the call still returns
the main render's byte count: the stamp write's outcome is ignored. -/
theorem C5_stamp_failure_ignored (cfg : Config) (env : Env) (pr : Int)
    (hts : cfg.CONFIG_SYSLOG_TIMESTAMP = true)
    (hbk : backendConfigured cfg) :
    (vsyslog_internal cfg { env with lib_sprintf_ret := pr }).1 =
      env.lib_vsprintf_ret ∧
    (vsyslog_internal cfg { env with lib_sprintf_ret := pr }).2 =
      [Event.stampWrite (stampText (tsOf env).1 ((tsOf env).2 / 1000)) pr,
       Event.msgWrite env.lib_vsprintf_ret] := by
  have hts' : tsOf { env with lib_sprintf_ret := pr } = tsOf env := rfl
  rw [vsyslog_internal_delivers cfg { env with lib_sprintf_ret := pr } hbk]
  unfold stampEvents
  rw [if_pos hts, hts']
  exact ⟨rfl, rfl⟩

/-- C5 witness: a failing stamp write (-2) does not stop the message
write nor change the returned render count. -/
theorem C5_stamp_failure_ignored_witness :
    ((vsyslog_internal cfgStructTs
        { envNeg with lib_sprintf_ret := -2 }).1 =
      envNeg.lib_vsprintf_ret ∧
     (vsyslog_internal cfgStructTs
        { envNeg with lib_sprintf_ret := -2 }).2 =
      [Event.stampWrite
         (stampText (tsOf envNeg).1 ((tsOf envNeg).2 / 1000)) (-2),
       Event.msgWrite envNeg.lib_vsprintf_ret]) :=
  C5_stamp_failure_ignored cfgStructTs envNeg (-2) rfl (Or.inl rfl)

/-- C6: on the delivered path (some backend configured, not redirected
by the interrupt guard, priority enabled in the mask) the call returns
exactly the main render's byte count, negative values included; the
stamp write's count is not part of the return value. -/
theorem C6_delivered_returns_render_count (cfg : Config) (env : Env)
    (st : SyslogState) (p : Nat)
    (hbk : backendConfigured cfg)
    (hni : ¬ (rawBackendActive cfg ∧ env.up_interrupt_context = true))
    (hmask : st.g_syslog_mask &&& LOG_MASK p ≠ 0) :
    (vsyslog cfg env st p).1 = env.lib_vsprintf_ret := by
  rw [vsyslog_mask_hit cfg env st p hni hmask,
    vsyslog_internal_delivers cfg env hbk]

/-- C6 witness: a render error (-3) is propagated unchanged even though
the (ignored) stamp write reported -2. -/
theorem C6_delivered_returns_render_count_witness :
    ((vsyslog cfgStructTs envNeg ⟨255⟩ 3).1 = envNeg.lib_vsprintf_ret) :=
  C6_delivered_returns_render_count cfgStructTs envNeg ⟨255⟩ 3
    (Or.inl rfl) (by decide) (by decide)

/-- C7: with no backend configured at all, every call returns 0 and
performs no sink write and no formatting work, for every priority, mask
and environment. -/
theorem C7_no_backend_returns_zero (cfg : Config) (env : Env)
    (st : SyslogState) (p : Nat)
    (hnb : ¬ backendConfigured cfg) :
    (vsyslog cfg env st p).1 = 0 ∧ (vsyslog cfg env st p).2.1 = [] := by
  have hraw : ¬ rawBackendActive cfg :=
    fun h => hnb (Or.inr (Or.inl h.2))
  unfold vsyslog
  rw [if_neg hraw]
  by_cases hmask : st.g_syslog_mask &&& LOG_MASK p ≠ 0
  · rw [if_pos hmask, vsyslog_internal_null cfg env hnb]
    exact ⟨rfl, rfl⟩
  · rw [if_neg hmask]
    exact ⟨rfl, rfl⟩

/-- C7 witness: no backend, all priorities enabled in the mask: the call
still returns 0 with an empty trace. -/
theorem C7_no_backend_returns_zero_witness :
    ((vsyslog cfgNull envNeg ⟨255⟩ 3).1 = 0 ∧
     (vsyslog cfgNull envNeg ⟨255⟩ 3).2.1 = []) :=
  C7_no_backend_returns_zero cfgNull envNeg ⟨255⟩ 3 (by decide)

/-- C8: `syslog` is defined purely in terms of `vsyslog`: for every
configuration, environment, state and priority it returns exactly what
`vsyslog` returns on the collected argument list, with no additional
behavior. -/
theorem C8_syslog_equals_vsyslog (cfg : Config) (env : Env)
    (st : SyslogState) (p : Nat) :
    syslog cfg env st p = vsyslog cfg env st p := rfl

/-- C9: neither `vsyslog` nor `syslog` ever modifies `g_syslog_mask` or
any other persistent state of the unit: the state after any call equals
the state before it. -/
theorem C9_mask_never_modified (cfg : Config) (env : Env)
    (st : SyslogState) (p : Nat) :
    (vsyslog cfg env st p).2.2 = st ∧ (syslog cfg env st p).2.2 = st := by
  unfold syslog vsyslog
  constructor <;> (repeat' split) <;> rfl

/-- C10: on the interrupt-context fallback path (raw-descriptor backend,
fallback available) the call delegates to `lowvsyslog` and neither its
result nor its trace depends on the severity mask: the mask check of
this unit happens only on the non-interrupt path. -/
theorem C10_fallback_bypasses_mask (cfg : Config) (env : Env)
    (p m1 m2 : Nat)
    (hraw : rawBackendActive cfg)
    (hirq : env.up_interrupt_context = true)
    (hfb : fallbackAvailable cfg) :
    (vsyslog cfg env ⟨m1⟩ p).1 = env.lowvsyslog_ret ∧
    (vsyslog cfg env ⟨m1⟩ p).1 = (vsyslog cfg env ⟨m2⟩ p).1 ∧
    (vsyslog cfg env ⟨m1⟩ p).2.1 = (vsyslog cfg env ⟨m2⟩ p).2.1 := by
  rw [vsyslog_fallback cfg env ⟨m1⟩ p hraw hirq hfb,
    vsyslog_fallback cfg env ⟨m2⟩ p hraw hirq hfb]
  exact ⟨rfl, rfl, rfl⟩

/-- C10 witness: with the mask fully cleared (0) and fully set (255) the
interrupt-context fallback call behaves identically, returning
`lowvsyslog`'s count 5. -/
theorem C10_fallback_bypasses_mask_witness :
    ((vsyslog cfgRawFb envIrq ⟨0⟩ 3).1 = envIrq.lowvsyslog_ret ∧
     (vsyslog cfgRawFb envIrq ⟨0⟩ 3).1 = (vsyslog cfgRawFb envIrq ⟨255⟩ 3).1 ∧
     (vsyslog cfgRawFb envIrq ⟨0⟩ 3).2.1 =
       (vsyslog cfgRawFb envIrq ⟨255⟩ 3).2.1) :=
  C10_fallback_bypasses_mask cfgRawFb envIrq 3 0 255
    (by decide) (by decide) (by decide)
